import Mathlib

/-!
Verification development for the SIEMENS RCC Comparator
(src/app.py and src/python.py, two near-duplicate front-ends over the
same core logic).

The core operations are embedded shallowly:
* `normalize` / `is_text_similar` — the fuzzy token matcher
  (app.py lines 88–98, python.py lines 741–754).  The similarity ratio
  is the Ratcliff/Obershelp ratio of Python's `difflib.SequenceMatcher`
  (with `isjunk=None`, `autojunk=True`), transcribed here over
  `List Char`: `b2j`, `find_longest_match`, `matchingBlocksSum`,
  `ratioVal`.
* `extract_text_data` — the token filter (app.py line 86): OCR rows are
  modelled as `Option String × TokenBox` pairs (a `none` text is a
  pandas null); the code keeps exactly the rows whose text is not null.
* `highlightRects` — the rectangle geometry of `highlight_changes`
  (app.py lines 100–112).
* `changedIndices` — the per-page diff comprehension
  (app.py lines 154–158).
* `timeFormat` / `remainingTime` — the time-remaining estimate
  (app.py lines 170–180).
* `compare_documents` — the orchestrator (app.py lines 123–198), with
  the external collaborators (pdf2image, pytesseract, file writes)
  modelled as `Except`-valued inputs and the shared cancellation flag
  as a `Nat → Bool` sequence of reads.
-/

namespace RCC

/-! ### Token normalization
`normalize` inside `is_text_similar`: strip surrounding whitespace,
lowercase, drop every character outside `[a-z0-9]`, then substitute the
OCR confusables `0→o`, `1→i`, `5→s`, `8→b`. -/

/-- Python `str.strip()` on a character list. -/
def pyStrip (l : List Char) : List Char :=
  ((l.dropWhile Char.isWhitespace).reverse.dropWhile Char.isWhitespace).reverse

/-- The chained `replace` calls `0→o`, `1→i`, `5→s`, `8→b`; the chain is
a single character map because no output of one step is an input of a
later one. -/
def substituteConfusables (c : Char) : Char :=
  if c = '0' then 'o'
  else if c = '1' then 'i'
  else if c = '5' then 's'
  else if c = '8' then 'b'
  else c

/-- The character class `[a-z0-9]` of the `re.sub` filter. -/
def isAsciiLowerAlnum (c : Char) : Bool :=
  ('a' ≤ c && c ≤ 'z') || ('0' ≤ c && c ≤ '9')

/-- `normalize(text)` from `is_text_similar`. -/
def normalize (s : String) : List Char :=
  (((pyStrip s.data).map Char.toLower).filter isAsciiLowerAlnum).map
    substituteConfusables

/-! ### difflib.SequenceMatcher (isjunk=None, autojunk=True)
Transcription of CPython's `difflib` for the `ratio()` call made by
`is_text_similar`.  With `isjunk=None` the junk set `bjunk` is empty, so
the two junk-extension loops of `find_longest_match` never run and the
`not isbjunk(...)` guards of the other two are vacuous; `autojunk` only
purges "popular" elements from `b2j` when `len(b) >= 200`. -/

/-- `self.b2j` lookup: the ascending list of positions of `c` in `b`,
emptied for popular elements when `len(b) >= 200` (autojunk). -/
def b2j (b : List Char) (c : Char) : List Nat :=
  let idxs := (List.range b.length).filter (fun j => b.getD j ' ' = c)
  if 200 ≤ b.length ∧ b.length / 100 + 1 < idxs.length then [] else idxs

/-- Inner loop of `find_longest_match` over the matching `b`-positions of
`a[i]`: builds the new `j2len` dictionary (a total function, absent keys
read as 0) and updates the best block, replacing only on a strictly
larger size. -/
def flmRow (j2len : Nat → Nat) (i : Nat) :
    List Nat → (Nat → Nat) → Nat × Nat × Nat → ((Nat → Nat) × (Nat × Nat × Nat))
  | [], newj2len, best => (newj2len, best)
  | j :: js, newj2len, best =>
    let k := (if j = 0 then 0 else j2len (j - 1)) + 1
    let newj2len' := fun x => if x = j then k else newj2len x
    let best' := if best.2.2 < k then (i + 1 - k, j + 1 - k, k) else best
    flmRow j2len i js newj2len' best'

/-- Outer loop of `find_longest_match` over `i ∈ range(alo, ahi)`. -/
def flmRows (a b : List Char) (blo bhi : Nat) :
    List Nat → (Nat → Nat) → Nat × Nat × Nat → Nat × Nat × Nat
  | [], _, best => best
  | i :: rest, j2len, best =>
    let js := (b2j b (a.getD i ' ')).filter (fun j => blo ≤ j && j < bhi)
    let p := flmRow j2len i js (fun _ => 0) best
    flmRows a b blo bhi rest p.1 p.2

/-- First extension loop: grow the best block downwards over equal
(non-junk) characters.  Fuel-bounded; `besti` decreases each step. -/
def extendLower (a b : List Char) (alo blo : Nat) :
    Nat → Nat × Nat × Nat → Nat × Nat × Nat
  | 0, best => best
  | fuel + 1, (besti, bestj, bestsize) =>
    if alo < besti ∧ blo < bestj ∧
        a.getD (besti - 1) ' ' = b.getD (bestj - 1) ' ' then
      extendLower a b alo blo fuel (besti - 1, bestj - 1, bestsize + 1)
    else (besti, bestj, bestsize)

/-- Second extension loop: grow the best block upwards. -/
def extendUpper (a b : List Char) (ahi bhi : Nat) :
    Nat → Nat × Nat × Nat → Nat × Nat × Nat
  | 0, best => best
  | fuel + 1, (besti, bestj, bestsize) =>
    if besti + bestsize < ahi ∧ bestj + bestsize < bhi ∧
        a.getD (besti + bestsize) ' ' = b.getD (bestj + bestsize) ' ' then
      extendUpper a b ahi bhi fuel (besti, bestj, bestsize + 1)
    else (besti, bestj, bestsize)

/-- `find_longest_match(alo, ahi, blo, bhi)` returning
`(besti, bestj, bestsize)`. -/
def find_longest_match (a b : List Char) (alo ahi blo bhi : Nat) :
    Nat × Nat × Nat :=
  let rows := (List.range ahi).drop alo
  let best := flmRows a b blo bhi rows (fun _ => 0) (alo, blo, 0)
  let best := extendLower a b alo blo ahi best
  extendUpper a b ahi bhi (ahi + bhi) best

/-- Total size of all matching blocks found by the recursive subdivision
of `get_matching_blocks` (the queue order and the final sort/merge do
not affect the sum, which is all `ratio()` uses).  Fuel-bounded; each
recursive call strictly shrinks `(ahi-alo) + (bhi-blo)`. -/
def matchingBlocksSum (a b : List Char) :
    Nat → Nat → Nat → Nat → Nat → Nat
  | 0, _, _, _, _ => 0
  | fuel + 1, alo, ahi, blo, bhi =>
    let m := find_longest_match a b alo ahi blo bhi
    let i := m.1
    let j := m.2.1
    let k := m.2.2
    if k = 0 then 0
    else
      k + (if alo < i ∧ blo < j then matchingBlocksSum a b fuel alo i blo j else 0)
        + (if i + k < ahi ∧ j + k < bhi then
            matchingBlocksSum a b fuel (i + k) ahi (j + k) bhi else 0)

/-- `SequenceMatcher(None, a, b).ratio()` = `2·M / T` with `T` the sum of
the lengths (`_calculate_ratio`, which returns 1.0 when `T = 0`). -/
def ratioVal (a b : List Char) : ℚ :=
  let total := a.length + b.length
  if total = 0 then 1
  else 2 * (matchingBlocksSum a b (total + 1) 0 a.length 0 b.length : ℚ) / (total : ℚ)

/-- `is_text_similar(a, b, threshold)` (app.py lines 88–98): exact match
of the normalized strings short-circuits to `True`; otherwise the
`SequenceMatcher` ratio must be strictly greater than the threshold. -/
def is_text_similar (a b : String) (threshold : ℚ) : Bool :=
  let norm_a := normalize a
  let norm_b := normalize b
  if norm_a = norm_b then true
  else decide (threshold < ratioVal norm_a norm_b)

/-! ### Token extraction (`extract_text_data`, app.py lines 78–86) -/

/-- A token's bounding box: the `left`, `top`, `width`, `height` columns
of the pytesseract data frame (cast with `int(...)` by the code). -/
structure TokenBox where
  left : Int
  top : Int
  width : Int
  height : Int
  deriving DecidableEq, Repr

/-- One row of the pytesseract data frame as consumed by the core: the
`text` column (`none` is a pandas null) and the bounding-box columns.
The OCR engine is an external black box, so rows range over this whole
type. -/
abbrev OcrRow := Option String × TokenBox

/-- The filtering step of `extract_text_data`:
`data[data.text.notnull()].reset_index(drop=True)` keeps exactly the
rows whose text is not null, in order, densely reindexed. -/
def extract_text_data (rows : List OcrRow) : List (String × TokenBox) :=
  rows.filterMap (fun row => match row.1 with
    | none => none
    | some t => some (t, row.2))

/-! ### Highlighting (`highlight_changes`, app.py lines 100–112) -/

/-- The padding added on every side of a changed token's box. -/
def padding : Int := 4

/-- The rectangle drawn for one token: `(x1, y1, x2, y2)` with
`x1 = max(x - padding, 0)`, `y1 = max(y - padding, 0)`,
`x2 = x + w + padding`, `y2 = y + h + padding` (bottom-right corner
unclamped). -/
def highlightRect (b : TokenBox) : Int × Int × Int × Int :=
  (max (b.left - padding) 0, max (b.top - padding) 0,
   b.left + b.width + padding, b.top + b.height + padding)

/-- The rectangles drawn by `highlight_changes`: one per change index
that passes the defensive `idx < len(text_data)` check. -/
def highlightRects (textData : List TokenBox) (changeIndices : List Nat) :
    List (Int × Int × Int × Int) :=
  changeIndices.filterMap (fun idx =>
    if idx < textData.length then
      some (highlightRect (textData.getD idx ⟨0, 0, 0, 0⟩))
    else none)

/-- A token's bounding box lies inside a `W × H` page image. -/
def boxInImage (W H : Int) (b : TokenBox) : Prop :=
  0 ≤ b.left ∧ 0 ≤ b.top ∧ 0 ≤ b.width ∧ 0 ≤ b.height ∧
    b.left + b.width ≤ W ∧ b.top + b.height ≤ H

/-- A rectangle `(x1, y1, x2, y2)` lies inside `[0, W] × [0, H]` with
ordered corners, as claim C1 states it. -/
def rectInImage (W H : Int) (r : Int × Int × Int × Int) : Prop :=
  0 ≤ r.1 ∧ r.1 ≤ r.2.2.1 ∧ r.2.2.1 ≤ W ∧
    0 ≤ r.2.1 ∧ r.2.1 ≤ r.2.2.2 ∧ r.2.2.2 ≤ H

instance (W H : Int) (b : TokenBox) : Decidable (boxInImage W H b) := by
  unfold boxInImage; infer_instance

instance (W H : Int) (r : Int × Int × Int × Int) :
    Decidable (rectInImage W H r) := by
  unfold rectInImage; infer_instance

/-! ### The per-page diff (app.py lines 154–158) -/

/-- `changed_indices = [idx for idx, mod_word in enumerate(mod_words)
if not any(is_text_similar(mod_word, orig_word, sensitivity) for
orig_word in orig_words)]`. -/
def changedIndices (origWords modWords : List String) (sensitivity : ℚ) :
    List Nat :=
  (modWords.enum.filter
    (fun p => !(origWords.any
      (fun origWord => is_text_similar p.2 origWord sensitivity)))).map
    Prod.fst

/-! ### Time-remaining estimation (app.py lines 170–180) -/

/-- `remaining = max(0, estimated_total - elapsed)` with
`estimated_total = elapsed / (progress / 100)`. -/
def remainingTime (elapsed progress : ℚ) : ℚ :=
  max 0 (elapsed / (progress / 100) - elapsed)

/-- The formatting of the remaining time (app.py lines 174–179):
minutes+seconds when `remaining > 60`, plain seconds otherwise.
`remaining // 60` is Python float floor division and both `int(...)`
casts are applied to non-negative values (the function is only ever
applied to `max(0, ...)`), so all three are floors. -/
def timeFormat (remaining : ℚ) : String :=
  if 60 < remaining then
    let mins := ⌊remaining / 60⌋
    let secs := ⌊remaining - 60 * (⌊remaining / 60⌋ : ℚ)⌋
    s!"Estimated time remaining: {mins}m {secs}s"
  else
    let secsOnly := ⌊remaining⌋
    s!"Estimated time remaining: {secsOnly}s"

/-- The formatting rule exactly as claim C4 words it: minutes plus
seconds whenever the remaining time is **at least** 60 seconds, seconds
only when it is **below** 60 seconds.  Stated from the claim, for
comparison with `timeFormat`. -/
def claimTimeFormat (remaining : ℚ) : String :=
  if 60 ≤ remaining then
    let mins := ⌊remaining⌋ / 60
    let secs := ⌊remaining⌋ % 60
    s!"Estimated time remaining: {mins}m {secs}s"
  else
    let secsOnly := ⌊remaining⌋
    s!"Estimated time remaining: {secsOnly}s"

/-- The amended formatting rule: minutes plus seconds only when the
remaining time is **strictly greater** than 60 seconds, seconds when it
is at most 60 seconds; minutes are the whole remaining seconds divided
by 60 and seconds the remainder.  Stated independently of `timeFormat`
(whole-seconds arithmetic instead of rational floors), to be proved
equal to it. -/
def amendedTimeFormat (remaining : ℚ) : String :=
  if 60 < remaining then
    let mins := ⌊remaining⌋ / 60
    let secs := ⌊remaining⌋ % 60
    s!"Estimated time remaining: {mins}m {secs}s"
  else
    let secsOnly := ⌊remaining⌋
    s!"Estimated time remaining: {secsOnly}s"

/-! ### The orchestrator (`compare_documents`, app.py lines 123–198)

External effects are modelled as values:
* `raster` — the outcome of the two `convert_from_path` calls; each page
  is carried as the outcome of `extract_text_data` on it (`.error` means
  the OCR call raised), reduced to its token texts.
* `reportResult` — the outcome of `create_pdf_report`.
* `flag` — the sequence of reads of the shared mutable
  `cancel_flag["cancel"]`: `flag k` is the value seen by the `k`-th read
  (one read at the top of each loop iteration, then up to two after the
  loop).
* `elapsedAt i` — `time.time() - start_time` after processing page `i`.
* `os.path.join` is modelled with a `/` separator.
Callback invocations (`progress_cb`, `status_cb`, `time_cb`) and
`log_result` calls are recorded in an `Events` trace. -/

/-- Severity tags of `log_result`. -/
inductive Severity
  | info
  | success
  | warning
  | error
  deriving DecidableEq, Repr

/-- The observable trace of one run: every value passed to
`progress_cb`, `status_cb`, `time_cb` and `log_result`, in order. -/
structure Events where
  progress : List ℚ
  status : List String
  times : List String
  log : List (String × Severity)
  deriving DecidableEq, Repr

def Events.init : Events := ⟨[], [], [], []⟩

def Events.emitProgress (ev : Events) (p : ℚ) : Events :=
  { ev with progress := ev.progress ++ [p] }

def Events.emitStatus (ev : Events) (msg : String) : Events :=
  { ev with status := ev.status ++ [msg] }

def Events.emitTime (ev : Events) (msg : String) : Events :=
  { ev with times := ev.times ++ [msg] }

def Events.addLog (ev : Events) (entry : String × Severity) : Events :=
  { ev with log := ev.log ++ [entry] }

/-- The extraction outcome for one page: the token texts, or the message
of the exception the extraction raised. -/
abbrev PageExtract := Except String (List String)

/-- The path `os.path.join(output_dir, f"page_{i+1}_diff.png")`. -/
def pagePath (outputDir : String) (ip1 : Nat) : String :=
  outputDir ++ s!"/page_{ip1}_diff.png"

/-- `RunResult` bundles the event trace with the files written:
`artifacts` are the page-diff images on disk and `reportWritten` whether
`comparison_report.pdf` was produced. -/
structure RunResult where
  ev : Events
  artifacts : List String
  reportWritten : Bool
  deriving DecidableEq, Repr

/-- The page loop of `compare_documents` (app.py lines 143–180).
Arguments: remaining pages, current index `i` (also the index of the
next flag read), events so far, artifact paths so far.  Returns the
events, artifacts and next read index, or the raised exception with the
trace and artifacts at that point. -/
def runPages (outputDir : String) (sensitivity : ℚ) (flag : Nat → Bool)
    (elapsedAt : Nat → ℚ) (total : Nat) :
    List (PageExtract × PageExtract) → Nat → Events → List String →
    Except (String × Events × List String) (Events × List String × Nat)
  | [], i, ev, arts => .ok (ev, arts, i)
  | page :: rest, i, ev, arts =>
    if flag i then
      .ok (ev.addLog ("Comparison cancelled by user", .warning), arts, i + 1)
    else
      let prog : ℚ := 10 + (i : ℚ) * 80 / (total : ℚ)
      let ip1 := i + 1
      let ev := (ev.emitProgress prog).emitStatus
        s!"Comparing page {ip1}/{total}..."
      match page.1 with
      | .error e => .error (e, ev, arts)
      | .ok origWords =>
        match page.2 with
        | .error e => .error (e, ev, arts)
        | .ok modWords =>
          let changed := changedIndices origWords modWords sensitivity
          let path := pagePath outputDir ip1
          let n := changed.length
          let step :=
            if changed.isEmpty then
              (ev.addLog (s!"Page {ip1}: No differences found", .info), arts)
            else
              (ev.addLog
                (s!"Page {ip1}: Found {n} differences → {path}", .success),
               arts ++ [path])
          let ev2 :=
            if (5 : ℚ) < prog then
              step.1.emitTime (timeFormat (remainingTime (elapsedAt i) prog))
            else step.1
          runPages outputDir sensitivity flag elapsedAt total rest (i + 1)
            ev2 step.2

/-- The code after the page loop (app.py lines 181–194): the two final
flag reads, report generation and the closing progress/status events.
`r` is the index of the next flag read. -/
def finishRun (flag : Nat → Bool) (r : Nat) (ev : Events)
    (arts : List String) (written : Bool) : RunResult :=
  if flag r then
    { ev := (ev.emitProgress 0).emitStatus "Comparison cancelled",
      artifacts := arts, reportWritten := written }
  else
    { ev := ((ev.emitProgress 100).emitStatus "Comparison complete!").addLog
        ("Document comparison finished successfully", .success),
      artifacts := arts, reportWritten := written }

/-- The log line `f"Processing {total_pages} page comparisons..."`. -/
def processingMsg (total : Nat) : String :=
  s!"Processing {total} page comparisons..."

/-- The body of the `try:` block of `compare_documents`
(app.py lines 124–194). -/
def compareBody (outputDir : String) (sensitivity : ℚ)
    (raster : Except String (List PageExtract × List PageExtract))
    (reportResult : Except String Unit) (flag : Nat → Bool)
    (elapsedAt : Nat → ℚ) :
    Except (String × Events × List String) RunResult :=
  let ev := (Events.init.emitProgress 5).emitStatus
    "Converting documents to images..."
  match raster with
  | .error e => .error (e, ev, [])
  | .ok pages =>
    let total := min pages.1.length pages.2.length
    if total = 0 then
      .error ("No pages found in one or both documents", ev, [])
    else
      let ev := ev.addLog (processingMsg total, .info)
      match runPages outputDir sensitivity flag elapsedAt total
          (pages.1.zip pages.2) 0 ev [] with
      | .error err => .error err
      | .ok res =>
        let ev := res.1
        let arts := res.2.1
        let r := res.2.2
        if arts.isEmpty then .ok (finishRun flag r ev arts false)
        else if flag r then .ok (finishRun flag (r + 1) ev arts false)
        else
          let ev := (ev.emitProgress 95).emitStatus "Generating final report..."
          match reportResult with
          | .error e => .error (e, ev, arts)
          | .ok _ =>
            let path := outputDir ++ "/comparison_report.pdf"
            let ev := ev.addLog (s!"Final report generated: {path}", .success)
            .ok (finishRun flag (r + 1) ev arts true)

/-- `compare_documents` (app.py lines 123–198): the `try:` body with its
`except Exception` handler, which emits progress 0, the
`"Error: ..."` status and an error-severity log entry. -/
def compare_documents (outputDir : String) (sensitivity : ℚ)
    (raster : Except String (List PageExtract × List PageExtract))
    (reportResult : Except String Unit) (flag : Nat → Bool)
    (elapsedAt : Nat → ℚ) : RunResult :=
  match compareBody outputDir sensitivity raster reportResult flag elapsedAt with
  | .ok result => result
  | .error err =>
    { ev := ((err.2.1.emitProgress 0).emitStatus s!"Error: {err.1}").addLog
        (s!"Error during comparison: {err.1}", .error),
      artifacts := err.2.2, reportWritten := false }

/-- Reference description of the per-page outputs of an uninterrupted,
non-raising prefix of the loop: the log entries and artifact paths that
processing the given pages produces, starting at page index `i`.  Used
to state what a cancelled run has and has not done. -/
def pageOutputs (outputDir : String) (sensitivity : ℚ) :
    Nat → List (PageExtract × PageExtract) →
    List (String × Severity) × List String
  | _, [] => ([], [])
  | i, page :: rest =>
    let tail := pageOutputs outputDir sensitivity (i + 1) rest
    match page.1, page.2 with
    | .ok origWords, .ok modWords =>
      let changed := changedIndices origWords modWords sensitivity
      let ip1 := i + 1
      let path := pagePath outputDir ip1
      let n := changed.length
      if changed.isEmpty then
        ((s!"Page {ip1}: No differences found", Severity.info) :: tail.1,
         tail.2)
      else
        ((s!"Page {ip1}: Found {n} differences → {path}", Severity.success)
          :: tail.1,
         path :: tail.2)
    | _, _ => ([], [])

/-! ## Claim C5: exact-match short-circuit -/

/-- C5: `is_text_similar` returns `true` whenever the normalized forms
of its two arguments are identical — in particular `is_text_similar s s
t` is `true` for every threshold, and so is the case where both inputs
normalize to the empty string — independently of the threshold value. -/
theorem C5_exact_match_short_circuit (a b : String) (t : ℚ)
    (h : normalize a = normalize b) : is_text_similar a b t = true := by
  simp [is_text_similar, h]

/-- C5 witness: `" "` and `"??"` both normalize to the empty string and
are reported similar at threshold 3/4. -/
theorem C5_witness :
    normalize " " = normalize "??" ∧ is_text_similar " " "??" (3/4) = true :=
  ⟨by decide, C5_exact_match_short_circuit " " "??" (3/4) (by decide)⟩

/-! ## Claim C6: threshold monotonicity -/

/-- C6: if `is_text_similar a b t1` holds and `t2 < t1` then
`is_text_similar a b t2` holds — lowering the threshold never removes a
match. -/
theorem C6_threshold_monotone (a b : String) (t1 t2 : ℚ)
    (hlt : t2 < t1) (h : is_text_similar a b t1 = true) :
    is_text_similar a b t2 = true := by
  by_cases hn : normalize a = normalize b
  · simp [is_text_similar, hn]
  · simp only [is_text_similar, if_neg hn, decide_eq_true_eq] at h ⊢
    exact hlt.trans h

/-- C6 witness: `"abcd"`/`"abce"` have ratio 3/4, above 7/10; the match
survives lowering the threshold to 1/2. -/
theorem C6_witness :
    (1/2 : ℚ) < 7/10 ∧ is_text_similar "abcd" "abce" (7/10) = true ∧
      is_text_similar "abcd" "abce" (1/2) = true :=
  ⟨by norm_num, by with_unfolding_all decide,
    C6_threshold_monotone "abcd" "abce" (7/10) (1/2) (by norm_num)
      (by with_unfolding_all decide)⟩

/-! ## Claim C3: symmetry of `is_text_similar` -/

/-- C3 counterexample: swapping the two arguments can change the result.
The `SequenceMatcher` ratio is order dependent:
`ratio("ab", "bacb") = 2/3` while `ratio("bacb", "ab") = 1/3` (the
matched `'a'` block at `(0, 1)` leaves no right-hand region to recover
the `'b'` when `"bacb"` is the first argument), so at threshold 1/2 —
inside the claimed `[0.5, 1.0]` domain — the two orders disagree. -/
theorem C3_counterexample :
    ¬ (∀ (a b : String) (t : ℚ), 1/2 ≤ t → t ≤ 1 →
        is_text_similar a b t = is_text_similar b a t) := by
  intro h
  have h2 := h "ab" "bacb" (1/2) le_rfl (by norm_num)
  rw [show is_text_similar "ab" "bacb" (1/2) = true from by
        with_unfolding_all decide,
      show is_text_similar "bacb" "ab" (1/2) = false from by
        with_unfolding_all decide] at h2
  exact Bool.noConfusion h2

/-- C3 amended: swapping the two arguments never changes the result when
the two normalized strings are equal (the exact-match path); in general
the underlying matching-blocks ratio is order dependent, so symmetry can
fail (see the counterexample). -/
theorem C3_amended_symmetric_on_equal_normalization (a b : String) (t : ℚ)
    (h : normalize a = normalize b) :
    is_text_similar a b t = is_text_similar b a t := by
  simp [is_text_similar, h]

/-- C3 amended witness at `"Ab"` / `" ab "`, threshold 3/4. -/
theorem C3_amended_witness :
    normalize "Ab" = normalize " ab " ∧
      is_text_similar "Ab" " ab " (3/4) = is_text_similar " ab " "Ab" (3/4) :=
  ⟨by decide,
    C3_amended_symmetric_on_equal_normalization "Ab" " ab " (3/4) (by decide)⟩

/-! ## Claim C1: highlight containment -/

/-- C1 counterexample: `highlight_changes` clamps only the top-left
corner; the bottom-right corner `x2 = x + w + padding` is not clamped,
so a token box touching the right edge of a 100×50 image produces the
rectangle `(0, 0, 104, 54)` with `x2 = 104 > 100 = image_width`. -/
theorem C1_counterexample :
    ¬ (∀ (W H : Int) (textData : List TokenBox) (changeIndices : List Nat),
        (∀ b ∈ textData, boxInImage W H b) →
        ∀ r ∈ highlightRects textData changeIndices, rectInImage W H r) := by
  intro h
  have := h 100 50 [⟨0, 0, 100, 50⟩] [0] (by decide) (0, 0, 104, 54)
    (by decide)
  exact absurd this (by decide)

/-- C1 amended: for token boxes lying inside the image, every
highlighted rectangle has its top-left corner clamped at 0, its corners
ordered, and both coordinates of its bottom-right corner exceeding the
image bounds by at most the 4-pixel padding (the code does not clamp the
bottom-right corner). -/
theorem C1_amended_highlight_containment (W H : Int)
    (textData : List TokenBox) (changeIndices : List Nat)
    (hb : ∀ b ∈ textData, boxInImage W H b) :
    ∀ r ∈ highlightRects textData changeIndices,
      0 ≤ r.1 ∧ r.1 ≤ r.2.2.1 ∧ r.2.2.1 ≤ W + padding ∧
        0 ≤ r.2.1 ∧ r.2.1 ≤ r.2.2.2 ∧ r.2.2.2 ≤ H + padding := by
  intro r hr
  obtain ⟨idx, hidx, hsome⟩ := List.mem_filterMap.mp hr
  by_cases hlt : idx < textData.length
  · rw [if_pos hlt] at hsome
    have hre := Option.some.inj hsome
    subst hre
    have hmem : textData.getD idx ⟨0, 0, 0, 0⟩ ∈ textData := by
      rw [List.getD_eq_get textData _ hlt]
      exact List.get_mem _ _ _
    have hbox := hb _ hmem
    unfold boxInImage at hbox
    obtain ⟨h1, h2, h3, h4, h5, h6⟩ := hbox
    unfold highlightRect padding
    dsimp only
    exact ⟨le_max_right _ _, max_le (by omega) (by omega), by omega,
      le_max_right _ _, max_le (by omega) (by omega), by omega⟩
  · rw [if_neg hlt] at hsome
    exact absurd hsome (by simp)

/-- C1 amended witness: a 2×2 box at (1, 1) in a 10×10 image. -/
theorem C1_amended_witness :
    (∀ b ∈ [TokenBox.mk 1 1 2 2], boxInImage 10 10 b) ∧
      ∀ r ∈ highlightRects [TokenBox.mk 1 1 2 2] [0],
        0 ≤ r.1 ∧ r.1 ≤ r.2.2.1 ∧ r.2.2.1 ≤ 10 + padding ∧
          0 ≤ r.2.1 ∧ r.2.1 ≤ r.2.2.2 ∧ r.2.2.2 ≤ 10 + padding :=
  ⟨by decide,
    C1_amended_highlight_containment 10 10 [TokenBox.mk 1 1 2 2] [0]
      (by decide)⟩

/-! ## Claim C2: extracted tokens have non-empty text -/

/-- C2 counterexample: the filter of `extract_text_data` is
`data.text.notnull()` — nullness only.  A row whose text is the empty
string is not null, so it survives into the returned token sequence,
contradicting the claim that no empty-text token appears. -/
theorem C2_counterexample :
    ¬ (∀ (rows : List OcrRow) (tok : String × TokenBox),
        tok ∈ extract_text_data rows → tok.1 ≠ "") := by
  intro h
  exact h [(some "", ⟨0, 0, 0, 0⟩)] ("", ⟨0, 0, 0, 0⟩) (by decide) rfl

/-- C2 amended: `extract_text_data` drops exactly the rows with null
text, preserving order (with a dense reindex); every surviving token's
text is the non-null input text, and tokens whose text is empty or
whitespace-only are retained. -/
theorem C2_amended_null_only_filter (rows : List OcrRow) :
    extract_text_data rows =
      (rows.filter (fun row => row.1.isSome)).map
        (fun row => (row.1.getD "", row.2)) := by
  induction rows with
  | nil => rfl
  | cons row rest ih =>
    obtain ⟨t, box⟩ := row
    cases t with
    | none => simpa [extract_text_data, List.filter_cons] using ih
    | some s => simpa [extract_text_data, List.filter_cons] using ih

/-! ## Claim C4: time-remaining projection and formatting -/

/-- C4 counterexample: at `elapsed = 60`, `progress = 50` the projected
remaining time is exactly 60 seconds; the code's test is `remaining >
60`, so it formats it as `"60s"`, while the claim (minutes+seconds
whenever at least 60 seconds, seconds only below 60) requires
`"1m 0s"`. -/
theorem C4_counterexample :
    timeFormat (remainingTime 60 50) = "Estimated time remaining: 60s" ∧
      claimTimeFormat (remainingTime 60 50) =
        "Estimated time remaining: 1m 0s" ∧
      timeFormat (remainingTime 60 50) ≠
        claimTimeFormat (remainingTime 60 50) := by
  refine ⟨?_, ?_, ?_⟩ <;> with_unfolding_all decide

/-- For a positive divisor, the floor of a rational division agrees with
integer (Euclidean) division of the floor. -/
lemma floor_div_sixty (r : ℚ) : ⌊r / 60⌋ = ⌊r⌋ / 60 := by
  have hed := Int.ediv_add_emod ⌊r⌋ 60
  have hm0 : 0 ≤ ⌊r⌋ % 60 := Int.emod_nonneg ⌊r⌋ (by norm_num)
  have hm1 : ⌊r⌋ % 60 < 60 := Int.emod_lt_of_pos ⌊r⌋ (by norm_num)
  have hf1 : (⌊r⌋ : ℚ) ≤ r := Int.floor_le r
  have hf2 : r < ⌊r⌋ + 1 := Int.lt_floor_add_one r
  have hedq : ((60 * (⌊r⌋ / 60) + ⌊r⌋ % 60 : ℤ) : ℚ) = ((⌊r⌋ : ℤ) : ℚ) := by
    exact_mod_cast hed
  push_cast at hedq
  have hm0q : (0 : ℚ) ≤ ((⌊r⌋ % 60 : ℤ) : ℚ) := by exact_mod_cast hm0
  have hm1q : ((⌊r⌋ % 60 : ℤ) : ℚ) < 60 := by exact_mod_cast hm1
  push_cast at hm0q hm1q
  refine Int.floor_eq_iff.mpr ⟨?_, ?_⟩
  · rw [le_div_iff₀ (by norm_num : (0 : ℚ) < 60)]
    linarith
  · rw [div_lt_iff₀ (by norm_num : (0 : ℚ) < 60)]
    have hm59 : ⌊r⌋ % 60 ≤ 59 := by omega
    have hm59q : ((⌊r⌋ % 60 : ℤ) : ℚ) ≤ 59 := by exact_mod_cast hm59
    push_cast at hm59q ⊢
    linarith

/-- The inner seconds expression of `timeFormat` is the integer
remainder mod 60 of the floored remaining time. -/
lemma floor_mod_sixty (r : ℚ) :
    ⌊r - 60 * (⌊r / 60⌋ : ℚ)⌋ = ⌊r⌋ % 60 := by
  rw [show r - 60 * ((⌊r / 60⌋ : ℤ) : ℚ) = r - ((60 * ⌊r / 60⌋ : ℤ) : ℚ) by
    push_cast; ring]
  rw [Int.floor_sub_int, floor_div_sixty]
  have := Int.ediv_add_emod ⌊r⌋ 60
  omega

/-- The code's formatter agrees everywhere with the amended description
(whole-seconds arithmetic, strict 60-second boundary). -/
lemma timeFormat_eq_amended (r : ℚ) : timeFormat r = amendedTimeFormat r := by
  simp only [timeFormat, amendedTimeFormat]
  rw [floor_mod_sixty, floor_div_sixty]

/-- C4 amended: after each page, for the emitted remaining time
`max(0, elapsed/(progress/100) - elapsed)`, the status text is formatted
as minutes plus seconds exactly when the remaining time is **strictly
greater** than 60 seconds (minutes = floored seconds divided by 60,
seconds = the remainder), and as plain seconds when it is at most 60
seconds. -/
theorem C4_amended_time_estimate (elapsed progress : ℚ) :
    timeFormat (remainingTime elapsed progress) =
      amendedTimeFormat (remainingTime elapsed progress) :=
  timeFormat_eq_amended _

/-! ## Claim C10: shape of the change set -/

/-- The change set is a sublist of `range (length modWords)`: the
comprehension filters `enumerate(mod_words)` and projects the index. -/
lemma changedIndices_sublist_range (origWords modWords : List String)
    (t : ℚ) :
    List.Sublist (changedIndices origWords modWords t)
      (List.range modWords.length) := by
  have h1 : List.Sublist
      (modWords.enum.filter fun p =>
        !(origWords.any fun origWord => is_text_similar p.2 origWord t))
      modWords.enum := List.filter_sublist _
  have h2 := h1.map Prod.fst
  rwa [List.enum_map_fst] at h2

/-- C10: the change set is strictly increasing (hence duplicate-free)
and every index in it is below the length of the modified token list, so
the Highlighter's defensive `idx < len(text_data)` check never skips an
index coming from the same extraction. -/
theorem C10_change_set_increasing_and_bounded
    (origWords modWords : List String) (t : ℚ) :
    (changedIndices origWords modWords t).Pairwise (· < ·) ∧
      (changedIndices origWords modWords t).Nodup ∧
      ∀ i ∈ changedIndices origWords modWords t, i < modWords.length := by
  have hsub := changedIndices_sublist_range origWords modWords t
  exact ⟨(List.pairwise_lt_range _).sublist hsub,
    (List.nodup_range _).sublist hsub,
    fun i hi => List.mem_range.mp (hsub.subset hi)⟩

/-! ## Claim C7: diff boundaries and membership -/

/-- C7: with an empty original token list every index of the modified
list is flagged; with an empty modified list the change set is empty;
and in general index `i` is in the change set iff `i` is a valid index
of the modified list and no original token is similar to modified token
`i` at the given threshold. -/
theorem C7_diff_boundaries (origWords modWords : List String) (t : ℚ) :
    changedIndices [] modWords t = List.range modWords.length ∧
      changedIndices origWords [] t = [] ∧
      ∀ i : Nat, i ∈ changedIndices origWords modWords t ↔
        i < modWords.length ∧ ∀ origWord ∈ origWords,
          is_text_similar (modWords.getD i "") origWord t = false := by
  refine ⟨?_, rfl, ?_⟩
  · simp [changedIndices, List.enum_map_fst]
  · intro i
    unfold changedIndices
    rw [List.mem_map]
    constructor
    · rintro ⟨p, hp, rfl⟩
      rw [List.mem_filter] at hp
      obtain ⟨hpe, hpred⟩ := hp
      have hget := List.mem_enum_iff_get?.mp hpe
      have hlt : p.1 < modWords.length := by
        rcases List.get?_eq_some.mp hget with ⟨h, _⟩
        exact h
      have hgd : modWords.getD p.1 "" = p.2 := by
        rw [List.getD_eq_get modWords _ hlt, ← Option.some.injEq,
          ← List.get?_eq_get hlt]
        exact hget
      refine ⟨hlt, fun w hw => ?_⟩
      rw [hgd]
      have hany : (origWords.any fun ow => is_text_similar p.2 ow t) = false := by
        simpa using hpred
      simpa using List.any_eq_false.mp hany w hw
    · rintro ⟨hlt, hall⟩
      refine ⟨(i, modWords.get ⟨i, hlt⟩), ?_, rfl⟩
      rw [List.mem_filter]
      refine ⟨List.mem_enum_iff_get?.mpr (by simp [List.get?_eq_get hlt]), ?_⟩
      simp only [Bool.not_eq_true']
      rw [List.any_eq_false]
      intro w hw
      have hw' := hall w hw
      rw [List.getD_eq_get modWords _ hlt] at hw'
      simpa [List.get_eq_getElem] using hw'

/-! ## Claim C9: all exceptions absorbed at the orchestrator boundary -/

/-- C9: every exception raised in any phase of the comparison
(rasterization, zero-page validation, per-page extraction, report
writing) is caught by `compare_documents` and never re-raised: the run
terminates normally with progress 0 emitted last, the status set to text
carrying the error message, and an error-severity log entry appended
last. -/
theorem C9_exceptions_absorbed (outputDir : String) (sensitivity : ℚ)
    (raster : Except String (List PageExtract × List PageExtract))
    (reportResult : Except String Unit) (flag : Nat → Bool)
    (elapsedAt : Nat → ℚ) (e : String) (ev : Events) (arts : List String)
    (h : compareBody outputDir sensitivity raster reportResult flag
      elapsedAt = .error (e, ev, arts)) :
    compare_documents outputDir sensitivity raster reportResult flag
        elapsedAt =
      { ev := ((ev.emitProgress 0).emitStatus s!"Error: {e}").addLog
          (s!"Error during comparison: {e}", .error),
        artifacts := arts, reportWritten := false } ∧
      (compare_documents outputDir sensitivity raster reportResult flag
        elapsedAt).ev.progress.getLast? = some 0 ∧
      (compare_documents outputDir sensitivity raster reportResult flag
        elapsedAt).ev.status.getLast? = some s!"Error: {e}" ∧
      (compare_documents outputDir sensitivity raster reportResult flag
        elapsedAt).ev.log.getLast? =
        some (s!"Error during comparison: {e}", .error) := by
  have hcd : compare_documents outputDir sensitivity raster reportResult
      flag elapsedAt =
      { ev := ((ev.emitProgress 0).emitStatus s!"Error: {e}").addLog
          (s!"Error during comparison: {e}", .error),
        artifacts := arts, reportWritten := false } := by
    unfold compare_documents
    rw [h]
  refine ⟨hcd, ?_, ?_, ?_⟩ <;> rw [hcd] <;>
    simp [Events.emitProgress, Events.emitStatus, Events.addLog]

/-- C9 witness: a rasterization failure `"boom"` is absorbed into the
handler's trace. -/
theorem C9_witness :
    compare_documents "out" (3/4) (.error "boom") (.ok ())
        (fun _ => false) (fun _ => 0) =
      { ev := ((((Events.init.emitProgress 5).emitStatus
            "Converting documents to images...").emitProgress 0).emitStatus
              "Error: boom").addLog
          ("Error during comparison: boom", .error),
        artifacts := [], reportWritten := false } ∧
      (compare_documents "out" (3/4) (.error "boom") (.ok ())
        (fun _ => false) (fun _ => 0)).ev.progress.getLast? = some 0 ∧
      (compare_documents "out" (3/4) (.error "boom") (.ok ())
        (fun _ => false) (fun _ => 0)).ev.status.getLast? =
          some "Error: boom" ∧
      (compare_documents "out" (3/4) (.error "boom") (.ok ())
        (fun _ => false) (fun _ => 0)).ev.log.getLast? =
          some ("Error during comparison: boom", .error) :=
  C9_exceptions_absorbed "out" (3/4) (.error "boom") (.ok ())
    (fun _ => false) (fun _ => 0) "boom"
    ((Events.init.emitProgress 5).emitStatus
      "Converting documents to images...") [] rfl

/-! ## Claim C8: cooperative cancellation -/

@[simp] lemma Events.log_emitProgress (ev : Events) (p : ℚ) :
    (ev.emitProgress p).log = ev.log := rfl

@[simp] lemma Events.log_emitStatus (ev : Events) (m : String) :
    (ev.emitStatus m).log = ev.log := rfl

@[simp] lemma Events.log_emitTime (ev : Events) (m : String) :
    (ev.emitTime m).log = ev.log := rfl

@[simp] lemma Events.log_addLog (ev : Events) (entry : String × Severity) :
    (ev.addLog entry).log = ev.log ++ [entry] := rfl

@[simp] lemma Events.progress_emitProgress (ev : Events) (p : ℚ) :
    (ev.emitProgress p).progress = ev.progress ++ [p] := rfl

@[simp] lemma Events.progress_emitStatus (ev : Events) (m : String) :
    (ev.emitStatus m).progress = ev.progress := rfl

@[simp] lemma Events.progress_emitTime (ev : Events) (m : String) :
    (ev.emitTime m).progress = ev.progress := rfl

@[simp] lemma Events.progress_addLog (ev : Events)
    (entry : String × Severity) : (ev.addLog entry).progress = ev.progress :=
  rfl

@[simp] lemma Events.status_emitProgress (ev : Events) (p : ℚ) :
    (ev.emitProgress p).status = ev.status := rfl

@[simp] lemma Events.status_emitStatus (ev : Events) (m : String) :
    (ev.emitStatus m).status = ev.status ++ [m] := rfl

@[simp] lemma Events.status_emitTime (ev : Events) (m : String) :
    (ev.emitTime m).status = ev.status := rfl

@[simp] lemma Events.status_addLog (ev : Events) (entry : String × Severity) :
    (ev.addLog entry).status = ev.status := rfl

/-- If the cancellation flag first reads true at the boundary check of
the page `c` positions ahead, the loop processes exactly the first `c`
remaining pages, logs the cancellation warning and returns, having made
`c + 1` further flag reads. -/
lemma runPages_cancelled (outputDir : String) (sensitivity : ℚ)
    (flag : Nat → Bool) (elapsedAt : Nat → ℚ) (total : Nat) :
    ∀ (pages : List (PageExtract × PageExtract)) (s : Nat) (ev : Events)
      (arts : List String) (c : Nat),
      c < pages.length →
      (∀ j, j < c → flag (s + j) = false) →
      flag (s + c) = true →
      (∀ j, j < c → ∃ origWords modWords,
        pages.get? j = some (.ok origWords, .ok modWords)) →
      ∃ ev' : Events,
        runPages outputDir sensitivity flag elapsedAt total pages s ev arts =
          .ok (ev',
            arts ++ (pageOutputs outputDir sensitivity s (pages.take c)).2,
            s + c + 1) ∧
        ev'.log = ev.log ++
          (pageOutputs outputDir sensitivity s (pages.take c)).1 ++
          [("Comparison cancelled by user", .warning)] := by
  intro pages
  induction pages with
  | nil =>
    intro s ev arts c hc _ _ _
    exact absurd hc (by simp)
  | cons page rest ih =>
    intro s ev arts c hc hbefore hset hok
    cases c with
    | zero =>
      have hs : flag s = true := by simpa using hset
      refine ⟨ev.addLog ("Comparison cancelled by user", .warning), ?_, ?_⟩
      · simp [runPages, hs, pageOutputs]
      · simp [pageOutputs]
    | succ c' =>
      have hs : flag s = false := by simpa using hbefore 0 (Nat.succ_pos _)
      obtain ⟨origWords, modWords, hpage⟩ := hok 0 (Nat.succ_pos _)
      have hpage' : page = (Except.ok origWords, Except.ok modWords) := by
        simpa using hpage
      subst hpage'
      have hprog5 : (5 : ℚ) < 10 + (s : ℚ) * 80 / (total : ℚ) := by
        have h80 : (0 : ℚ) ≤ (s : ℚ) * 80 / (total : ℚ) := by positivity
        linarith
      have hc' : c' < rest.length := by
        simpa using Nat.lt_of_succ_lt_succ hc
      have hbefore' : ∀ j, j < c' → flag (s + 1 + j) = false := by
        intro j hj
        have h := hbefore (j + 1) (Nat.succ_lt_succ hj)
        rwa [show s + (j + 1) = s + 1 + j by omega] at h
      have hset' : flag (s + 1 + c') = true := by
        rwa [show s + (c' + 1) = s + 1 + c' by omega] at hset
      have hok' : ∀ j, j < c' → ∃ origWords modWords,
          rest.get? j = some (.ok origWords, .ok modWords) := by
        intro j hj
        simpa using hok (j + 1) (Nat.succ_lt_succ hj)
      by_cases hch : (changedIndices origWords modWords sensitivity).isEmpty
      · obtain ⟨ev', hrun, hlog⟩ := ih (s + 1)
          ((((ev.emitProgress (10 + (s : ℚ) * 80 / (total : ℚ))).emitStatus
            s!"Comparing page {s + 1}/{total}...").addLog
              (s!"Page {s + 1}: No differences found", .info)).emitTime
            (timeFormat (remainingTime (elapsedAt s)
              (10 + (s : ℚ) * 80 / (total : ℚ)))))
          arts c' hc' hbefore' hset' hok'
        refine ⟨ev', ?_, ?_⟩
        · rw [show runPages outputDir sensitivity flag elapsedAt total
              ((Except.ok origWords, Except.ok modWords) :: rest) s ev arts =
              runPages outputDir sensitivity flag elapsedAt total rest (s + 1)
                ((((ev.emitProgress
                    (10 + (s : ℚ) * 80 / (total : ℚ))).emitStatus
                  s!"Comparing page {s + 1}/{total}...").addLog
                    (s!"Page {s + 1}: No differences found", .info)).emitTime
                  (timeFormat (remainingTime (elapsedAt s)
                    (10 + (s : ℚ) * 80 / (total : ℚ))))) arts from by
            simp [runPages, hs, hch, if_pos hprog5]]
          rw [hrun]
          simp only [Except.ok.injEq, Prod.mk.injEq]
          refine ⟨trivial, ?_, by omega⟩
          simp [pageOutputs, hch, List.take_succ_cons]
        · rw [hlog]
          simp [pageOutputs, hch, List.take_succ_cons, List.append_assoc]
      · obtain ⟨ev', hrun, hlog⟩ := ih (s + 1)
          ((((ev.emitProgress (10 + (s : ℚ) * 80 / (total : ℚ))).emitStatus
            s!"Comparing page {s + 1}/{total}...").addLog
              (s!"Page {s + 1}: Found {(changedIndices origWords modWords
                sensitivity).length} differences → {pagePath outputDir
                (s + 1)}", .success)).emitTime
            (timeFormat (remainingTime (elapsedAt s)
              (10 + (s : ℚ) * 80 / (total : ℚ)))))
          (arts ++ [pagePath outputDir (s + 1)]) c' hc' hbefore' hset' hok'
        refine ⟨ev', ?_, ?_⟩
        · rw [show runPages outputDir sensitivity flag elapsedAt total
              ((Except.ok origWords, Except.ok modWords) :: rest) s ev arts =
              runPages outputDir sensitivity flag elapsedAt total rest (s + 1)
                ((((ev.emitProgress
                    (10 + (s : ℚ) * 80 / (total : ℚ))).emitStatus
                  s!"Comparing page {s + 1}/{total}...").addLog
                    (s!"Page {s + 1}: Found {(changedIndices origWords
                      modWords sensitivity).length} differences → {pagePath
                      outputDir (s + 1)}", .success)).emitTime
                  (timeFormat (remainingTime (elapsedAt s)
                    (10 + (s : ℚ) * 80 / (total : ℚ)))))
                (arts ++ [pagePath outputDir (s + 1)]) from by
            simp [runPages, hs, hch, if_pos hprog5]]
          rw [hrun]
          simp only [Except.ok.injEq, Prod.mk.injEq]
          refine ⟨trivial, ?_, by omega⟩
          simp [pageOutputs, hch, List.take_succ_cons, List.append_assoc]
        · rw [hlog]
          simp [pageOutputs, hch, List.take_succ_cons, List.append_assoc]

@[simp] lemma Events.log_init : Events.init.log = [] := rfl

/-- C8: the cancellation flag is checked before each page; if it is
first seen set at the boundary check before page `c` (0-based) of a run
whose documents rasterized to more than `c` page pairs, and — being set
only ever by the UI — stays set from then on, the run logs the
"Comparison cancelled by user" warning, compares no further pages,
writes no report, emits progress 0 and status "Comparison cancelled"
last, and its artifacts are exactly those of the pages processed before
the cancellation. -/
theorem C8_cancellation_stops_run (outputDir : String) (sensitivity : ℚ)
    (origPages modPages : List PageExtract)
    (reportResult : Except String Unit) (flag : Nat → Bool)
    (elapsedAt : Nat → ℚ) (c : Nat)
    (hmono : ∀ i j : Nat, i ≤ j → flag i = true → flag j = true)
    (hc : c < min origPages.length modPages.length)
    (hbefore : ∀ j, j < c → flag j = false)
    (hset : flag c = true)
    (hok : ∀ j, j < c → ∃ origWords modWords,
      (origPages.zip modPages).get? j =
        some (.ok origWords, .ok modWords)) :
    (compare_documents outputDir sensitivity (.ok (origPages, modPages))
        reportResult flag elapsedAt).reportWritten = false ∧
      (compare_documents outputDir sensitivity (.ok (origPages, modPages))
        reportResult flag elapsedAt).ev.progress.getLast? = some 0 ∧
      (compare_documents outputDir sensitivity (.ok (origPages, modPages))
        reportResult flag elapsedAt).ev.status.getLast? =
          some "Comparison cancelled" ∧
      (compare_documents outputDir sensitivity (.ok (origPages, modPages))
        reportResult flag elapsedAt).artifacts =
        (pageOutputs outputDir sensitivity 0
          ((origPages.zip modPages).take c)).2 ∧
      (compare_documents outputDir sensitivity (.ok (origPages, modPages))
        reportResult flag elapsedAt).ev.log =
        (processingMsg (min origPages.length modPages.length),
            Severity.info) ::
          (pageOutputs outputDir sensitivity 0
            ((origPages.zip modPages).take c)).1 ++
          [("Comparison cancelled by user", Severity.warning)] := by
  have htot : ¬ (min origPages.length modPages.length = 0) := by omega
  have hlen : c < (origPages.zip modPages).length := by
    rw [List.length_zip]; exact hc
  obtain ⟨ev', hrun, hlog⟩ := runPages_cancelled outputDir sensitivity flag
    elapsedAt (min origPages.length modPages.length)
    (origPages.zip modPages) 0
    (((Events.init.emitProgress 5).emitStatus
      "Converting documents to images...").addLog
      (processingMsg (min origPages.length modPages.length), .info))
    [] c hlen (by simpa using hbefore) (by simpa using hset) hok
  have hflag1 : flag (c + 1) = true := hmono c (c + 1) (by omega) hset
  have hflag2 : flag (c + 2) = true := hmono c (c + 2) (by omega) hset
  have hbody : compareBody outputDir sensitivity (.ok (origPages, modPages))
      reportResult flag elapsedAt =
      .ok { ev := (ev'.emitProgress 0).emitStatus "Comparison cancelled",
            artifacts := (pageOutputs outputDir sensitivity 0
              ((origPages.zip modPages).take c)).2,
            reportWritten := false } := by
    by_cases harts : ((pageOutputs outputDir sensitivity 0
        ((origPages.zip modPages).take c)).2).isEmpty
    · simp [compareBody, htot, hrun, harts, finishRun, hflag1]
    · simp [compareBody, htot, hrun, harts, finishRun, hflag1, hflag2]
  have hcd : compare_documents outputDir sensitivity
      (.ok (origPages, modPages)) reportResult flag elapsedAt =
      { ev := (ev'.emitProgress 0).emitStatus "Comparison cancelled",
        artifacts := (pageOutputs outputDir sensitivity 0
          ((origPages.zip modPages).take c)).2,
        reportWritten := false } := by
    unfold compare_documents
    rw [hbody]
  rw [hcd]
  refine ⟨rfl, ?_, ?_, rfl, ?_⟩
  · simp
  · simp
  · simp [hlog]

/-- C8 witness: a two-page run whose flag turns on at the boundary
before page 2 (read index 1): page 1 is processed, the run cancels
before page 2. -/
theorem C8_witness :
    (compare_documents "out" (3/4)
        (.ok ([.ok ["Valve"], .ok ["a"]], [.ok ["Valve", "zzz"], .ok ["a"]]))
        (.ok ()) (fun i => decide (1 ≤ i)) (fun _ => 30)).reportWritten =
          false ∧
      (compare_documents "out" (3/4)
        (.ok ([.ok ["Valve"], .ok ["a"]], [.ok ["Valve", "zzz"], .ok ["a"]]))
        (.ok ()) (fun i => decide (1 ≤ i))
        (fun _ => 30)).ev.progress.getLast? = some 0 ∧
      (compare_documents "out" (3/4)
        (.ok ([.ok ["Valve"], .ok ["a"]], [.ok ["Valve", "zzz"], .ok ["a"]]))
        (.ok ()) (fun i => decide (1 ≤ i))
        (fun _ => 30)).ev.status.getLast? = some "Comparison cancelled" ∧
      (compare_documents "out" (3/4)
        (.ok ([.ok ["Valve"], .ok ["a"]], [.ok ["Valve", "zzz"], .ok ["a"]]))
        (.ok ()) (fun i => decide (1 ≤ i)) (fun _ => 30)).artifacts =
        (pageOutputs "out" (3/4) 0
          (([Except.ok ["Valve"], Except.ok ["a"]].zip
            [Except.ok ["Valve", "zzz"], Except.ok ["a"]]).take 1)).2 ∧
      (compare_documents "out" (3/4)
        (.ok ([.ok ["Valve"], .ok ["a"]], [.ok ["Valve", "zzz"], .ok ["a"]]))
        (.ok ()) (fun i => decide (1 ≤ i)) (fun _ => 30)).ev.log =
        (processingMsg (min
            ([Except.ok ["Valve"], Except.ok ["a"]] :
              List PageExtract).length
            ([Except.ok ["Valve", "zzz"], Except.ok ["a"]] :
              List PageExtract).length),
            Severity.info) ::
          (pageOutputs "out" (3/4) 0
            (([Except.ok ["Valve"], Except.ok ["a"]].zip
              [Except.ok ["Valve", "zzz"], Except.ok ["a"]]).take 1)).1 ++
          [("Comparison cancelled by user", Severity.warning)] :=
  C8_cancellation_stops_run "out" (3/4)
    [Except.ok ["Valve"], Except.ok ["a"]]
    [Except.ok ["Valve", "zzz"], Except.ok ["a"]]
    (.ok ()) (fun i => decide (1 ≤ i)) (fun _ => 30) 1
    (fun i j hij hi => by
      simp only [decide_eq_true_eq] at hi ⊢
      omega)
    (by decide)
    (fun j hj => by
      have hj0 : j = 0 := by omega
      subst hj0
      rfl)
    rfl
    (fun j hj => by
      have hj0 : j = 0 := by omega
      subst hj0
      exact ⟨["Valve"], ["Valve", "zzz"], rfl⟩)

end RCC
